import Mathlib

/-!
Shallow embedding of the `ammrat13-hdmi-dev` Linux framebuffer driver
(`src/unnamed/part_001`, with `src/recipes-hdmi-dev/.../ammrat13-hdmi-dev.c`
as a near-identical variant).  Register reads and writes, wake-ups, and the
DMA-buffer allocation are modelled as an explicit event trace; the values
that hardware reads return are supplied by an environment record, so every
driver function becomes a pure Lean function from its environment to a
result together with the trace of side effects it performs, in order.
-/

/-- Register block offsets, from the `HDMI_*_OFF` constants in the source. -/
def HDMI_CTRL_OFF : Nat := 0x00

/-- Offset of the global-interrupt-enable register. -/
def HDMI_GIE_OFF : Nat := 0x04

/-- Offset of the interrupt-enable register. -/
def HDMI_IER_OFF : Nat := 0x08

/-- Offset of the interrupt-status register. -/
def HDMI_ISR_OFF : Nat := 0x0c

/-- Offset of the buffer-base-address register. -/
def HDMI_BUF_OFF : Nat := 0x10

/-- Offset of the packed scan-coordinate data register. -/
def HDMI_COORD_DATA_OFF : Nat := 0x18

/-- Offset of the scan-coordinate control (data-valid) register. -/
def HDMI_COORD_CTRL_OFF : Nat := 0x1c

/-- Bitmask of the per-frame vblank interrupt cause (`HDMI_VBLANK_IRQ`). -/
def HDMI_VBLANK_IRQ : Nat := 0x02

/-- One observable side effect of the driver: a 32-bit register read
(offset, value returned by the hardware), a 32-bit register write
(offset, value written), a `wake_up_interruptible_all` broadcast on the
vblank wait queue, or a successful DMA buffer allocation publishing the
given bus address. -/
inductive Ev where
  | read : Nat → Nat → Ev
  | write : Nat → Nat → Ev
  | wakeAll : Ev
  | allocBuffer : Nat → Ev
deriving DecidableEq

/-- `struct hdmi_coordinate`: decoded scan position. -/
structure hdmi_coordinate where
  fid : Nat
  row : Nat
  col : Nat
deriving DecidableEq

/-- The unpacking step of `hdmi_coordinate_read`: frame id is bits 31:20,
row is bits 19:10, column is bits 9:0 of the coordinate data word. -/
def hdmi_coordinate_decode (data : Nat) : hdmi_coordinate :=
  ⟨(data >>> 20) &&& 0xfff, (data >>> 10) &&& 0x3ff, (data >>> 0) &&& 0x3ff⟩

/-- `hdmi_coordinate_read`: spins reading the coordinate-control register
until bit 0 (data valid) is set, then reads the coordinate-data register
once and unpacks it.  `ctrlVals` lists the successive values the
coordinate-control register yields; if the valid bit never appears within
that list the C loop has not terminated yet, modelled as `none`. -/
def hdmi_coordinate_read : List Nat → Nat → Option (hdmi_coordinate × List Ev)
  | [], _ => none
  | c :: rest, data =>
    if c &&& 1 = 0 then
      match hdmi_coordinate_read rest data with
      | none => none
      | some (r, t) => some (r, Ev.read HDMI_COORD_CTRL_OFF c :: t)
    else
      some (hdmi_coordinate_decode data,
        [Ev.read HDMI_COORD_CTRL_OFF c, Ev.read HDMI_COORD_DATA_OFF data])

/-- `hdmi_coordinate_is_vblank`: in vertical blank iff the row is below 45. -/
def hdmi_coordinate_is_vblank (coord : hdmi_coordinate) : Bool :=
  decide (coord.row < 45)

/-- `hdmi_coordinate_is_hblank`: in horizontal blank iff the column is below 160. -/
def hdmi_coordinate_is_hblank (coord : hdmi_coordinate) : Bool :=
  decide (coord.col < 160)

/-- `hdmi_coordinate_is_vsync`: in vertical sync iff the row is in [10, 12). -/
def hdmi_coordinate_is_vsync (coord : hdmi_coordinate) : Bool :=
  decide (10 ≤ coord.row) && decide (coord.row < 12)

/-- Return value of an interrupt handler, plus `BUG` for the kernel panic
raised by `BUG_ON(isr == 0)` (control never continues past it). -/
inductive IrqRet where
  | IRQ_NONE : IrqRet
  | IRQ_HANDLED : IrqRet
  | BUG : IrqRet
deriving DecidableEq

/-- Environment of one `hdmi_isr` invocation: the values the control
register and the interrupt-status register yield when read. -/
structure IsrEnv where
  ctrl : Nat
  isr : Nat
deriving DecidableEq

/-- Output of one `hdmi_isr` invocation: its return value, whether the
`WARN_ON_ONCE(isr != HDMI_VBLANK_IRQ)` condition was raised, and the trace
of side effects, in program order. -/
structure IsrOut where
  ret : IrqRet
  warned : Bool
  trace : List Ev
deriving DecidableEq

/-- `hdmi_isr`: reads the control register; if bit 0x200 (global interrupt
pending) is clear it returns `IRQ_NONE` at once.  Otherwise it reads the
interrupt-status register, panics if that is zero, warns (once) if it is
not exactly the vblank cause bit, then wakes all waiters on the vblank
wait queue and acknowledges by writing the read status value back. -/
def hdmi_isr (env : IsrEnv) : IsrOut :=
  if env.ctrl &&& 0x200 = 0 then
    ⟨IrqRet.IRQ_NONE, false, [Ev.read HDMI_CTRL_OFF env.ctrl]⟩
  else if env.isr = 0 then
    ⟨IrqRet.BUG, false,
      [Ev.read HDMI_CTRL_OFF env.ctrl, Ev.read HDMI_ISR_OFF env.isr]⟩
  else
    ⟨IrqRet.IRQ_HANDLED, decide (env.isr ≠ HDMI_VBLANK_IRQ),
      [Ev.read HDMI_CTRL_OFF env.ctrl, Ev.read HDMI_ISR_OFF env.isr,
       Ev.wakeAll, Ev.write HDMI_ISR_OFF env.isr]⟩

/-- Claim C4: the blanking classification is exactly: vertical blank iff
row < 45 (so row 44 is vblank and row 45 is not), horizontal blank iff
column < 160, and vertical sync iff 10 ≤ row < 12. -/
theorem hdmi_coordinate_classification (c : hdmi_coordinate) :
    (hdmi_coordinate_is_vblank c = true ↔ c.row < 45) ∧
    (hdmi_coordinate_is_hblank c = true ↔ c.col < 160) ∧
    (hdmi_coordinate_is_vsync c = true ↔ 10 ≤ c.row ∧ c.row < 12) ∧
    hdmi_coordinate_is_vblank ⟨c.fid, 44, c.col⟩ = true ∧
    hdmi_coordinate_is_vblank ⟨c.fid, 45, c.col⟩ = false := by
  simp [hdmi_coordinate_is_vblank, hdmi_coordinate_is_hblank,
    hdmi_coordinate_is_vsync]

/-- Claim C1: in every ISR invocation that services a device interrupt
(pending bit 0x200 set, nonzero status so the `BUG_ON` does not fire), the
wake-up broadcast to all vblank waiters occurs strictly before the
acknowledge write to the interrupt-status register, the acknowledged value
is exactly the status value read earlier in the same invocation, and that
acknowledge is the only write the invocation performs to the status
register. -/
theorem hdmi_isr_wake_before_ack (env : IsrEnv)
    (hp : env.ctrl &&& 0x200 ≠ 0) (hz : env.isr ≠ 0) :
    ∃ i j, i < j ∧
      (hdmi_isr env).trace.get? i = some Ev.wakeAll ∧
      (hdmi_isr env).trace.get? j = some (Ev.write HDMI_ISR_OFF env.isr) ∧
      (∃ k, k < i ∧
        (hdmi_isr env).trace.get? k = some (Ev.read HDMI_ISR_OFF env.isr)) ∧
      (∀ k w, (hdmi_isr env).trace.get? k = some (Ev.write HDMI_ISR_OFF w) →
        k = j ∧ w = env.isr) := by
  refine ⟨2, 3, by omega, ?_, ?_, ⟨1, by omega, ?_⟩, ?_⟩
  · simp [hdmi_isr, hp, hz]
  · simp [hdmi_isr, hp, hz]
  · simp [hdmi_isr, hp, hz]
  · intro k w hk
    simp only [hdmi_isr, if_neg hp, if_neg hz] at hk
    match k, hk with
    | 3, hk =>
      have hw : env.isr = w := by simpa using hk
      exact ⟨rfl, hw.symm⟩
    | 0, hk => simp at hk
    | 1, hk => simp [HDMI_CTRL_OFF, HDMI_ISR_OFF] at hk
    | 2, hk => simp at hk
    | (n + 4), hk => simp at hk

/-- Witness for C1 at the concrete environment ctrl = 0x200, isr = 0x02. -/
theorem hdmi_isr_wake_before_ack_witness :
    ∃ i j, i < j ∧
      (hdmi_isr ⟨0x200, 0x02⟩).trace.get? i = some Ev.wakeAll ∧
      (hdmi_isr ⟨0x200, 0x02⟩).trace.get? j =
        some (Ev.write HDMI_ISR_OFF 0x02) ∧
      (∃ k, k < i ∧
        (hdmi_isr ⟨0x200, 0x02⟩).trace.get? k =
          some (Ev.read HDMI_ISR_OFF 0x02)) ∧
      (∀ k w, (hdmi_isr ⟨0x200, 0x02⟩).trace.get? k =
          some (Ev.write HDMI_ISR_OFF w) → k = j ∧ w = 0x02) :=
  hdmi_isr_wake_before_ack ⟨0x200, 0x02⟩ (by decide) (by decide)

/-- Claim C6: when the ISR runs with the global-interrupt-pending bit
(mask 0x200) of the control register clear, it returns `IRQ_NONE` and its
trace holds no register write and no wake-up: the only side effect is the
control-register read that classified the interrupt as not ours. -/
theorem hdmi_isr_not_pending_no_side_effects (env : IsrEnv)
    (hp : env.ctrl &&& 0x200 = 0) :
    (hdmi_isr env).ret = IrqRet.IRQ_NONE ∧
    (∀ e ∈ (hdmi_isr env).trace, ∀ off v, e ≠ Ev.write off v) ∧
    Ev.wakeAll ∉ (hdmi_isr env).trace := by
  simp [hdmi_isr, hp]

/-- Witness for C6 at the concrete environment ctrl = 0x081, isr = 0x02. -/
theorem hdmi_isr_not_pending_no_side_effects_witness :
    (hdmi_isr ⟨0x081, 0x02⟩).ret = IrqRet.IRQ_NONE ∧
    (∀ e ∈ (hdmi_isr ⟨0x081, 0x02⟩).trace, ∀ off v, e ≠ Ev.write off v) ∧
    Ev.wakeAll ∉ (hdmi_isr ⟨0x081, 0x02⟩).trace :=
  hdmi_isr_not_pending_no_side_effects ⟨0x081, 0x02⟩ (by decide)

/-- Claim C7: with the pending bit set, a zero interrupt status takes the
fatal `BUG_ON` branch — the ISR stops there, with no wake-up and no write —
while any nonzero status, even one different from the vblank cause bit
0x02, only raises the (once-only) warning condition exactly when the status
differs from 0x02, and is serviced and acknowledged exactly like a normal
interrupt: same return value and same wake-then-acknowledge trace shape,
acknowledging the value read. -/
theorem hdmi_isr_status_zero_fatal_else_serviced (env : IsrEnv)
    (hp : env.ctrl &&& 0x200 ≠ 0) :
    (env.isr = 0 →
      (hdmi_isr env).ret = IrqRet.BUG ∧
      Ev.wakeAll ∉ (hdmi_isr env).trace ∧
      (∀ e ∈ (hdmi_isr env).trace, ∀ off v, e ≠ Ev.write off v)) ∧
    (env.isr ≠ 0 →
      (hdmi_isr env).ret = IrqRet.IRQ_HANDLED ∧
      ((hdmi_isr env).warned = true ↔ env.isr ≠ HDMI_VBLANK_IRQ) ∧
      (hdmi_isr env).trace =
        [Ev.read HDMI_CTRL_OFF env.ctrl, Ev.read HDMI_ISR_OFF env.isr,
         Ev.wakeAll, Ev.write HDMI_ISR_OFF env.isr]) := by
  constructor
  · intro hz
    simp [hdmi_isr, hp, hz]
  · intro hz
    simp [hdmi_isr, hp, hz]

/-- Witness for C7 at the concrete environment ctrl = 0x200, isr = 0x05
(nonzero but not the vblank cause): handled, warned, normal trace. -/
theorem hdmi_isr_status_zero_fatal_else_serviced_witness :
    (hdmi_isr ⟨0x200, 0x05⟩).ret = IrqRet.IRQ_HANDLED ∧
    (hdmi_isr ⟨0x200, 0x05⟩).warned = true ∧
    (hdmi_isr ⟨0x200, 0x05⟩).trace =
      [Ev.read HDMI_CTRL_OFF 0x200, Ev.read HDMI_ISR_OFF 0x05,
       Ev.wakeAll, Ev.write HDMI_ISR_OFF 0x05] := by
  have h := (hdmi_isr_status_zero_fatal_else_serviced ⟨0x200, 0x05⟩
    (by decide)).2 (by decide)
  exact ⟨h.1, h.2.1.mpr (by decide), h.2.2⟩

/-- Claim C5: whenever the coordinate decoder terminates, it returned the
fields frame id = bits 31:20, row = bits 19:10, column = bits 9:0 of the
coordinate-data word, and its trace is a run of coordinate-control reads
whose values all have bit 0 clear, then one coordinate-control read whose
value has bit 0 set, then exactly one coordinate-data read. -/
theorem hdmi_coordinate_read_spec (cs : List Nat) (data : Nat)
    (r : hdmi_coordinate) (t : List Ev)
    (h : hdmi_coordinate_read cs data = some (r, t)) :
    r.fid = (data >>> 20) &&& 0xfff ∧
    r.row = (data >>> 10) &&& 0x3ff ∧
    r.col = data &&& 0x3ff ∧
    ∃ (pre : List Nat) (c : Nat), (∀ x ∈ pre, x &&& 1 = 0) ∧ c &&& 1 ≠ 0 ∧
      t = (pre.map fun x => Ev.read HDMI_COORD_CTRL_OFF x) ++
          [Ev.read HDMI_COORD_CTRL_OFF c, Ev.read HDMI_COORD_DATA_OFF data] := by
  induction cs generalizing t with
  | nil => simp [hdmi_coordinate_read] at h
  | cons c rest ih =>
    rw [hdmi_coordinate_read] at h
    by_cases hc : c &&& 1 = 0
    · rw [if_pos hc] at h
      match hrec : hdmi_coordinate_read rest data with
      | none => rw [hrec] at h; simp at h
      | some (r2, t2) =>
        rw [hrec] at h
        simp only [Option.some.injEq, Prod.mk.injEq] at h
        obtain ⟨hr, ht⟩ := h
        subst hr
        obtain ⟨h1, h2, h3, pre, cv, hpre, hcv, ht2⟩ := ih t2 hrec
        refine ⟨h1, h2, h3, c :: pre, cv, ?_, hcv, ?_⟩
        · intro x hx
          rcases List.mem_cons.mp hx with hx | hx
          · exact hx ▸ hc
          · exact hpre x hx
        · subst ht2
          simp [← ht]
    · rw [if_neg hc] at h
      simp only [Option.some.injEq, Prod.mk.injEq] at h
      obtain ⟨hr, ht⟩ := h
      subst hr
      refine ⟨rfl, rfl, ?_, [], c, by simp, hc, by simp [← ht]⟩
      simp [hdmi_coordinate_decode]

/-- Witness for C5: two polls (first invalid, then valid) on the data word
0x12345678, which decodes to frame id 0x123, row 0x115, column 0x278. -/
theorem hdmi_coordinate_read_spec_witness :
    (hdmi_coordinate_decode 0x12345678).fid = (0x12345678 >>> 20) &&& 0xfff ∧
    (hdmi_coordinate_decode 0x12345678).row = (0x12345678 >>> 10) &&& 0x3ff ∧
    (hdmi_coordinate_decode 0x12345678).col = 0x12345678 &&& 0x3ff ∧
    ∃ (pre : List Nat) (c : Nat), (∀ x ∈ pre, x &&& 1 = 0) ∧ c &&& 1 ≠ 0 ∧
      [Ev.read HDMI_COORD_CTRL_OFF 0, Ev.read HDMI_COORD_CTRL_OFF 1,
       Ev.read HDMI_COORD_DATA_OFF 0x12345678] =
        (pre.map fun x => Ev.read HDMI_COORD_CTRL_OFF x) ++
        [Ev.read HDMI_COORD_CTRL_OFF c,
         Ev.read HDMI_COORD_DATA_OFF 0x12345678] :=
  hdmi_coordinate_read_spec [0, 1] 0x12345678
    (hdmi_coordinate_decode 0x12345678)
    [Ev.read HDMI_COORD_CTRL_OFF 0, Ev.read HDMI_COORD_CTRL_OFF 1,
     Ev.read HDMI_COORD_DATA_OFF 0x12345678] (by decide)

/-- Kernel tick rate of the target platform (`CONFIG_HZ`). -/
def HZ : Nat := 100

/-- `msecs_to_jiffies` for a tick rate dividing 1000: round the millisecond
count up to whole jiffies. -/
def msecs_to_jiffies (m : Nat) : Nat := (m + 1000 / HZ - 1) / (1000 / HZ)

/-- Error numbers used by the driver (their positive magnitudes). -/
def ERESTARTSYS : Int := 512

/-- Error number for an interrupted call. -/
def EINTR : Int := 4

/-- Error number for an elapsed timeout. -/
def ETIMEDOUT : Int := 110

/-- Error number for an invalid argument. -/
def EINVAL : Int := 22

/-- One iteration of the interruptible wait: the coordinate the predicate
re-check decodes, whether a signal is pending at this iteration, and how
many jiffies the sleep consumes before the next wake-up. -/
structure WaitRound where
  coord : hdmi_coordinate
  signaled : Bool
  consumed : Nat
deriving DecidableEq

/-- The loop of the kernel's `wait_event_interruptible_timeout`: on each
wake-up, first re-check the vblank predicate (breaking with the remaining
jiffies, forced to 1 if the budget just hit zero while the predicate is
true, or with 0 on an exhausted budget and false predicate), then check
for a pending signal (breaking with -ERESTARTSYS), else sleep again with a
reduced budget.  `none` models a wait still blocked after all the listed
wake-ups. -/
def wait_loop : List WaitRound → Nat → Option Int
  | [], _ => none
  | r :: rest, ret =>
    let cond := hdmi_coordinate_is_vblank r.coord
    let ret1 := if cond = true ∧ ret = 0 then 1 else ret
    if cond = true ∨ ret1 = 0 then some ((ret1 : Int))
    else if r.signaled = true then some (-ERESTARTSYS)
    else wait_loop rest (ret1 - r.consumed)

/-- `wait_event_interruptible_timeout`: checks the vblank predicate once
before blocking — an already-true predicate returns the whole remaining
budget immediately — and otherwise enters the wake-up loop.  `c0` is the
coordinate decoded by that first predicate check. -/
def wait_event_interruptible_timeout (c0 : hdmi_coordinate)
    (rounds : List WaitRound) (timeout : Nat) : Option Int :=
  let cond0 := hdmi_coordinate_is_vblank c0
  let ret0 := if cond0 = true ∧ timeout = 0 then 1 else timeout
  if cond0 = true ∨ ret0 = 0 then some ((ret0 : Int))
  else wait_loop rounds timeout

/-- The `FBIO_WAITFORVSYNC` arm of `hdmi_ioctl`: waits on the vblank wait
queue with a `msecs_to_jiffies(20)` budget, then maps `-ERESTARTSYS` to
`-EINTR`, a zero result to `-ETIMEDOUT` (after a `WARN_ON`), and any
positive result to success. -/
def hdmi_ioctl_waitforvsync (c0 : hdmi_coordinate)
    (rounds : List WaitRound) : Option Int :=
  match wait_event_interruptible_timeout c0 rounds (msecs_to_jiffies 20) with
  | none => none
  | some res =>
    if res = -ERESTARTSYS then some (-EINTR)
    else if res = 0 then some (-ETIMEDOUT)
    else some 0

/-- Every value `wait_loop` can deliver is `-ERESTARTSYS` or a natural. -/
theorem wait_loop_ret_shape (rounds : List WaitRound) :
    ∀ (ret : Nat) (v : Int), wait_loop rounds ret = some v →
      v = -ERESTARTSYS ∨ ∃ n : Nat, v = (n : Int) := by
  induction rounds with
  | nil =>
    intro ret v h
    simp [wait_loop] at h
  | cons r rest ih =>
    intro ret v h
    simp only [wait_loop] at h
    split_ifs at h
    all_goals
      first
      | exact Or.inr ⟨_, (Option.some_injective _ h).symm⟩
      | exact Or.inl (Option.some_injective _ h).symm
      | exact ih _ v h

/-- Every value the wait can deliver is `-ERESTARTSYS` or a natural. -/
theorem wait_event_ret_shape (c0 : hdmi_coordinate) (rounds : List WaitRound)
    (timeout : Nat) (v : Int)
    (h : wait_event_interruptible_timeout c0 rounds timeout = some v) :
    v = -ERESTARTSYS ∨ ∃ n : Nat, v = (n : Int) := by
  simp only [wait_event_interruptible_timeout] at h
  split_ifs at h
  all_goals
    first
    | exact Or.inr ⟨_, (Option.some_injective _ h).symm⟩
    | exact wait_loop_ret_shape rounds timeout v h

/-- Claim C2: whenever the wait-for-vblank ioctl returns, its result is
exactly one of 0 (success), `-EINTR`, or `-ETIMEDOUT`, and the three are
characterized by the outcome of the underlying interruptible timed wait:
`-EINTR` exactly when the wait was interrupted (`-ERESTARTSYS`),
`-ETIMEDOUT` exactly when the ~20 ms jiffy budget elapsed with the
predicate still false (wait result 0), and 0 exactly when the wait ended
with the predicate true (a positive jiffy count remaining).  No other
error code is possible. -/
theorem hdmi_ioctl_waitforvsync_outcomes (c0 : hdmi_coordinate)
    (rounds : List WaitRound) (res : Int)
    (h : hdmi_ioctl_waitforvsync c0 rounds = some res) :
    (res = 0 ∨ res = -EINTR ∨ res = -ETIMEDOUT) ∧
    (res = -EINTR ↔
      wait_event_interruptible_timeout c0 rounds (msecs_to_jiffies 20) =
        some (-ERESTARTSYS)) ∧
    (res = -ETIMEDOUT ↔
      wait_event_interruptible_timeout c0 rounds (msecs_to_jiffies 20) =
        some 0) ∧
    (res = 0 ↔ ∃ n : Nat, 0 < n ∧
      wait_event_interruptible_timeout c0 rounds (msecs_to_jiffies 20) =
        some ((n : Int))) := by
  match hw : wait_event_interruptible_timeout c0 rounds (msecs_to_jiffies 20) with
  | none =>
    rw [hdmi_ioctl_waitforvsync, hw] at h
    exact absurd h (by simp)
  | some v =>
    rw [hdmi_ioctl_waitforvsync, hw] at h
    have h2 : (if v = -ERESTARTSYS then some (-EINTR)
        else if v = 0 then some (-ETIMEDOUT) else some (0 : Int)) = some res := h
    simp only [Option.some.injEq, EINTR, ETIMEDOUT, ERESTARTSYS] at h2 ⊢
    by_cases hv1 : v = -512
    · rw [if_pos hv1] at h2
      have hres : res = -4 := (Option.some_injective _ h2).symm
      subst hres
      subst hv1
      refine ⟨Or.inr (Or.inl rfl), by omega, by omega, ?_⟩
      constructor
      · intro hbad
        exact absurd hbad (by omega)
      · rintro ⟨n, hn, hbad⟩
        exfalso
        omega
    · rw [if_neg hv1] at h2
      by_cases hv2 : v = 0
      · rw [if_pos hv2] at h2
        have hres : res = -110 := (Option.some_injective _ h2).symm
        subst hres
        subst hv2
        refine ⟨Or.inr (Or.inr rfl), by omega, by omega, ?_⟩
        constructor
        · intro hbad
          exact absurd hbad (by omega)
        · rintro ⟨n, hn, hbad⟩
          exfalso
          omega
      · rw [if_neg hv2] at h2
        have hres : res = 0 := (Option.some_injective _ h2).symm
        subst hres
        rcases wait_event_ret_shape c0 rounds (msecs_to_jiffies 20) v hw with
          hsh | ⟨n, hn⟩
        · exact absurd hsh (by simpa [ERESTARTSYS] using hv1)
        · subst hn
          have hnpos : 0 < n := by omega
          refine ⟨Or.inl rfl, by omega, by omega, ?_⟩
          exact ⟨fun _ => ⟨n, hnpos, rfl⟩, fun _ => rfl⟩

/-- Witness for C2: called already in vblank (row 0) with no wake-ups, the
ioctl returns 0, and the outcome characterization holds there. -/
theorem hdmi_ioctl_waitforvsync_outcomes_witness :
    ((0 : Int) = 0 ∨ (0 : Int) = -EINTR ∨ (0 : Int) = -ETIMEDOUT) ∧
    ((0 : Int) = -EINTR ↔
      wait_event_interruptible_timeout ⟨0, 0, 0⟩ [] (msecs_to_jiffies 20) =
        some (-ERESTARTSYS)) ∧
    ((0 : Int) = -ETIMEDOUT ↔
      wait_event_interruptible_timeout ⟨0, 0, 0⟩ [] (msecs_to_jiffies 20) =
        some 0) ∧
    ((0 : Int) = 0 ↔ ∃ n : Nat, 0 < n ∧
      wait_event_interruptible_timeout ⟨0, 0, 0⟩ [] (msecs_to_jiffies 20) =
        some ((n : Int))) :=
  hdmi_ioctl_waitforvsync_outcomes ⟨0, 0, 0⟩ [] 0 (by decide)

/-- Claim C3: if the decoded scan position is already in vertical blank
(row < 45) when `FBIO_WAITFORVSYNC` is called, the ioctl returns success
(0) immediately: the result does not depend on the wake-up rounds at all,
including the case of no delivered interrupt (`rounds = []`), because the
wait's initial predicate check already breaks out with the full budget. -/
theorem hdmi_ioctl_waitforvsync_immediate_when_vblank (c0 : hdmi_coordinate)
    (rounds : List WaitRound) (h : c0.row < 45) :
    hdmi_ioctl_waitforvsync c0 rounds = some 0 := by
  have hc : hdmi_coordinate_is_vblank c0 = true := by
    simp [hdmi_coordinate_is_vblank, h]
  rw [hdmi_ioctl_waitforvsync, wait_event_interruptible_timeout]
  simp [hc, msecs_to_jiffies, HZ, ERESTARTSYS]

/-- Witness for C3 at the boundary row 44 with no interrupts delivered. -/
theorem hdmi_ioctl_waitforvsync_immediate_when_vblank_witness :
    hdmi_ioctl_waitforvsync ⟨0, 44, 0⟩ [] = some 0 :=
  hdmi_ioctl_waitforvsync_immediate_when_vblank ⟨0, 44, 0⟩ [] (by decide)

/-- Environment of one `hdmi_probe` call: the result of each helper step
(`0` means the step succeeded, as the code tests `!= 0`), the bus address
the DMA allocation publishes on success, and the value the
coordinate-control read returns. -/
structure ProbeEnv where
  create_res : Int
  map_res : Int
  buf_res : Int
  bus_addr : Nat
  palette_res : Int
  irq_res : Int
  register_res : Int
  coord_ctrl_val : Nat
deriving DecidableEq

/-- `hdmi_probe`: runs the helper steps in order (create fbinfo, map
registers, allocate the DMA buffer, allocate the pseudo palette, request
the IRQ, register the framebuffer), aborting with the failing step's code;
on full success it writes the buffer bus address to the buffer-base
register, enables global and vblank interrupts, clears the stale
coordinate-valid bit with a read, and starts the device.  The trace
records the buffer allocation and every register access. -/
def hdmi_probe (env : ProbeEnv) : Int × List Ev :=
  if env.create_res ≠ 0 then (env.create_res, [])
  else if env.map_res ≠ 0 then (env.map_res, [])
  else if env.buf_res ≠ 0 then (env.buf_res, [])
  else if env.palette_res ≠ 0 then (env.palette_res, [Ev.allocBuffer env.bus_addr])
  else if env.irq_res ≠ 0 then (env.irq_res, [Ev.allocBuffer env.bus_addr])
  else if env.register_res ≠ 0 then (env.register_res, [Ev.allocBuffer env.bus_addr])
  else (0,
    [Ev.allocBuffer env.bus_addr,
     Ev.write HDMI_BUF_OFF env.bus_addr,
     Ev.write HDMI_GIE_OFF 0x01,
     Ev.write HDMI_IER_OFF HDMI_VBLANK_IRQ,
     Ev.read HDMI_COORD_CTRL_OFF env.coord_ctrl_val,
     Ev.write HDMI_CTRL_OFF 0x081])

/-- `hdmi_remove`: stops the device, disables both interrupt-enable paths,
and clears the coordinate-valid bit with a read; it never touches the
buffer-base register. -/
def hdmi_remove (coord_ctrl_val : Nat) : Int × List Ev :=
  (0, [Ev.write HDMI_CTRL_OFF 0x000,
       Ev.write HDMI_GIE_OFF 0x00,
       Ev.write HDMI_IER_OFF 0x00,
       Ev.read HDMI_COORD_CTRL_OFF coord_ctrl_val])

/-- Whether an event is a write to the buffer-base register. -/
def Ev.isBufWrite : Ev → Bool
  | Ev.write off _ => off == HDMI_BUF_OFF
  | _ => false

/-- On a successful probe the trace is exactly the allocation followed by
the programming sequence of the device. -/
theorem hdmi_probe_success_trace (env : ProbeEnv)
    (h : (hdmi_probe env).1 = 0) :
    hdmi_probe env =
      (0, [Ev.allocBuffer env.bus_addr, Ev.write HDMI_BUF_OFF env.bus_addr,
           Ev.write HDMI_GIE_OFF 0x01, Ev.write HDMI_IER_OFF HDMI_VBLANK_IRQ,
           Ev.read HDMI_COORD_CTRL_OFF env.coord_ctrl_val,
           Ev.write HDMI_CTRL_OFF 0x081]) := by
  rw [hdmi_probe] at h ⊢
  split_ifs at h with h1 h2 h3 h4 h5 h6
  all_goals simp_all

/-- Claim C8: in every successful attach, the buffer-base register is
written exactly once; that write comes after the buffer allocation
succeeded and before the global-interrupt-enable write, the
interrupt-enable write, and the device-start write to the control
register; and detach performs no write at all to the buffer-base
register. -/
theorem hdmi_probe_buffer_write_ordering (env : ProbeEnv)
    (h : (hdmi_probe env).1 = 0) :
    (hdmi_probe env).2.countP Ev.isBufWrite = 1 ∧
    (∃ i j k l m,
      i < j ∧ j < k ∧ k < l ∧ l < m ∧
      (hdmi_probe env).2.get? i = some (Ev.allocBuffer env.bus_addr) ∧
      (hdmi_probe env).2.get? j = some (Ev.write HDMI_BUF_OFF env.bus_addr) ∧
      (hdmi_probe env).2.get? k = some (Ev.write HDMI_GIE_OFF 0x01) ∧
      (hdmi_probe env).2.get? l = some (Ev.write HDMI_IER_OFF HDMI_VBLANK_IRQ) ∧
      (hdmi_probe env).2.get? m = some (Ev.write HDMI_CTRL_OFF 0x081)) ∧
    (∀ v, (hdmi_remove v).2.countP Ev.isBufWrite = 0) := by
  rw [hdmi_probe_success_trace env h]
  refine ⟨?_, ⟨0, 1, 2, 3, 5, by omega, by omega, by omega, by omega,
    rfl, rfl, rfl, rfl, rfl⟩, ?_⟩
  · simp [Ev.isBufWrite, List.countP_cons, List.countP_nil,
      HDMI_BUF_OFF, HDMI_GIE_OFF, HDMI_IER_OFF, HDMI_CTRL_OFF]
  · intro v
    simp [hdmi_remove, Ev.isBufWrite, List.countP_cons, List.countP_nil,
      HDMI_BUF_OFF, HDMI_GIE_OFF, HDMI_IER_OFF, HDMI_CTRL_OFF]

/-- Witness for C8 at a fully successful probe environment with bus
address 0x0f000000 and coordinate-control value 1. -/
theorem hdmi_probe_buffer_write_ordering_witness :
    (hdmi_probe ⟨0, 0, 0, 0x0f000000, 0, 0, 0, 1⟩).2.countP Ev.isBufWrite = 1 ∧
    (∃ i j k l m,
      i < j ∧ j < k ∧ k < l ∧ l < m ∧
      (hdmi_probe ⟨0, 0, 0, 0x0f000000, 0, 0, 0, 1⟩).2.get? i =
        some (Ev.allocBuffer 0x0f000000) ∧
      (hdmi_probe ⟨0, 0, 0, 0x0f000000, 0, 0, 0, 1⟩).2.get? j =
        some (Ev.write HDMI_BUF_OFF 0x0f000000) ∧
      (hdmi_probe ⟨0, 0, 0, 0x0f000000, 0, 0, 0, 1⟩).2.get? k =
        some (Ev.write HDMI_GIE_OFF 0x01) ∧
      (hdmi_probe ⟨0, 0, 0, 0x0f000000, 0, 0, 0, 1⟩).2.get? l =
        some (Ev.write HDMI_IER_OFF HDMI_VBLANK_IRQ) ∧
      (hdmi_probe ⟨0, 0, 0, 0x0f000000, 0, 0, 0, 1⟩).2.get? m =
        some (Ev.write HDMI_CTRL_OFF 0x081)) ∧
    (∀ v, (hdmi_remove v).2.countP Ev.isBufWrite = 0) :=
  hdmi_probe_buffer_write_ordering ⟨0, 0, 0, 0x0f000000, 0, 0, 0, 1⟩ (by decide)

/-- `FB_VMODE_MASK` from the framebuffer API. -/
def FB_VMODE_MASK : Nat := 255

/-- `FB_VMODE_NONINTERLACED` from the framebuffer API. -/
def FB_VMODE_NONINTERLACED : Nat := 0

/-- `struct fb_bitfield`: layout of one color channel. -/
structure fb_bitfield where
  offset : Nat
  length : Nat
  msb_right : Nat
deriving DecidableEq

/-- The fields of `struct fb_var_screeninfo` the driver reads or writes. -/
structure fb_var_screeninfo where
  xres : Nat
  yres : Nat
  xres_virtual : Nat
  yres_virtual : Nat
  xoffset : Nat
  yoffset : Nat
  bits_per_pixel : Nat
  grayscale : Nat
  red : fb_bitfield
  green : fb_bitfield
  blue : fb_bitfield
  transp : fb_bitfield
  nonstd : Nat
  pixclock : Nat
  left_margin : Nat
  right_margin : Nat
  upper_margin : Nat
  lower_margin : Nat
  hsync_len : Nat
  vsync_len : Nat
  sync : Nat
  vmode : Nat
deriving DecidableEq

/-- `hdmi_var_init`: the one supported 640x480@60Hz mode (sync = both
`FB_SYNC_HOR_HIGH_ACT` and `FB_SYNC_VERT_HIGH_ACT`). -/
def hdmi_var_init : fb_var_screeninfo :=
  ⟨640, 480, 640, 480, 0, 0, 32, 0,
   ⟨16, 8, 0⟩, ⟨8, 8, 0⟩, ⟨0, 8, 0⟩, ⟨24, 0, 0⟩,
   0, 39721, 40, 24, 32, 11, 96, 2, 3, FB_VMODE_NONINTERLACED⟩

/-- `hdmi_check_var`: rounds an under-sized virtual resolution up to the
requested one, then rejects (with `-EINVAL`) any resolution other than
640x480, any rounded virtual resolution other than 640x480, an interlaced
buffer structure, a color depth other than 32bpp truecolor, or non-zero
panning offsets; otherwise it normalizes the color layout and timing
fields to the fixed mode, touching only the interlacing bits of `vmode`,
and returns 0.  The returned record is the possibly-modified `var`. -/
def hdmi_check_var (v0 : fb_var_screeninfo) : Int × fb_var_screeninfo :=
  let v1 := if v0.xres_virtual < v0.xres then { v0 with xres_virtual := v0.xres } else v0
  let v := if v1.yres_virtual < v1.yres then { v1 with yres_virtual := v1.yres } else v1
  if v.xres ≠ 640 ∨ v.yres ≠ 480 then (-EINVAL, v)
  else if v.xres_virtual ≠ 640 ∨ v.yres_virtual ≠ 480 then (-EINVAL, v)
  else if v.vmode &&& FB_VMODE_MASK ≠ FB_VMODE_NONINTERLACED then (-EINVAL, v)
  else if v.bits_per_pixel ≠ 32 ∨ v.grayscale ≠ 0 then (-EINVAL, v)
  else if v.xoffset ≠ 0 ∨ v.yoffset ≠ 0 then (-EINVAL, v)
  else (0, { v with
    red := hdmi_var_init.red, green := hdmi_var_init.green,
    blue := hdmi_var_init.blue, transp := hdmi_var_init.transp,
    nonstd := hdmi_var_init.nonstd, pixclock := hdmi_var_init.pixclock,
    left_margin := hdmi_var_init.left_margin,
    right_margin := hdmi_var_init.right_margin,
    upper_margin := hdmi_var_init.upper_margin,
    lower_margin := hdmi_var_init.lower_margin,
    hsync_len := hdmi_var_init.hsync_len, vsync_len := hdmi_var_init.vsync_len,
    sync := hdmi_var_init.sync,
    vmode := (hdmi_var_init.vmode &&& FB_VMODE_MASK) |||
             (v.vmode &&& (0xffffffff ^^^ FB_VMODE_MASK)) })

/-- The accepted `vmode` has its mode bits forced to non-interlaced. -/
theorem vmode_norm (x : Nat) :
    (hdmi_var_init.vmode &&& 255 ||| x &&& (4294967295 ^^^ 255)) &&& 255 = 0 := by
  have h0 : hdmi_var_init.vmode &&& 255 = 0 := by decide
  have h1 : (4294967295 : Nat) ^^^ 255 = 4294967040 := by decide
  have h2 : (4294967040 : Nat) &&& 255 = 0 := by decide
  rw [h0, h1, Nat.zero_or, Nat.land_assoc, h2]
  exact Nat.and_zero x

set_option maxHeartbeats 1000000 in
/-- Claim C9: geometry negotiation first rounds an under-sized virtual
resolution up to the requested one, then returns 0 exactly for 640x480
with (rounded) virtual resolution 640x480, 32 bits per pixel, no
grayscale, a non-interlaced mode field, and zero panning offsets; every
other configuration yields `-EINVAL` (and nothing else), and on acceptance
the color-layout and timing fields are normalized to the fixed mode, with
the mode bits of `vmode` forced to non-interlaced. -/
theorem hdmi_check_var_spec (v0 : fb_var_screeninfo) :
    ((hdmi_check_var v0).1 = 0 ∨ (hdmi_check_var v0).1 = -EINVAL) ∧
    ((hdmi_check_var v0).1 = 0 ↔
      (v0.xres = 640 ∧ v0.yres = 480 ∧
       max v0.xres v0.xres_virtual = 640 ∧ max v0.yres v0.yres_virtual = 480 ∧
       v0.vmode &&& FB_VMODE_MASK = FB_VMODE_NONINTERLACED ∧
       v0.bits_per_pixel = 32 ∧ v0.grayscale = 0 ∧
       v0.xoffset = 0 ∧ v0.yoffset = 0)) ∧
    ((hdmi_check_var v0).1 = 0 →
      ((hdmi_check_var v0).2.xres_virtual = 640 ∧
       (hdmi_check_var v0).2.yres_virtual = 480 ∧
       (hdmi_check_var v0).2.red = hdmi_var_init.red ∧
       (hdmi_check_var v0).2.green = hdmi_var_init.green ∧
       (hdmi_check_var v0).2.blue = hdmi_var_init.blue ∧
       (hdmi_check_var v0).2.transp = hdmi_var_init.transp ∧
       (hdmi_check_var v0).2.nonstd = hdmi_var_init.nonstd ∧
       (hdmi_check_var v0).2.pixclock = hdmi_var_init.pixclock ∧
       (hdmi_check_var v0).2.left_margin = hdmi_var_init.left_margin ∧
       (hdmi_check_var v0).2.right_margin = hdmi_var_init.right_margin ∧
       (hdmi_check_var v0).2.upper_margin = hdmi_var_init.upper_margin ∧
       (hdmi_check_var v0).2.lower_margin = hdmi_var_init.lower_margin ∧
       (hdmi_check_var v0).2.hsync_len = hdmi_var_init.hsync_len ∧
       (hdmi_check_var v0).2.vsync_len = hdmi_var_init.vsync_len ∧
       (hdmi_check_var v0).2.sync = hdmi_var_init.sync ∧
       (hdmi_check_var v0).2.vmode &&& FB_VMODE_MASK =
         FB_VMODE_NONINTERLACED)) := by
  refine ⟨?_, ?_, ?_⟩
  · simp only [hdmi_check_var]
    split_ifs <;> simp [EINVAL]
  · simp only [hdmi_check_var, EINVAL, FB_VMODE_MASK, FB_VMODE_NONINTERLACED]
    by_cases hA : v0.xres_virtual < v0.xres <;>
      by_cases hB : v0.yres_virtual < v0.yres <;>
        simp only [hA, hB, if_true, if_false] <;>
          generalize hV : v0.vmode &&& 255 = V <;>
              split_ifs with h1 h2 h3 h4 h5 <;>
                (try dsimp only) <;> omega
  · simp only [hdmi_check_var, EINVAL, FB_VMODE_MASK, FB_VMODE_NONINTERLACED]
    by_cases hA : v0.xres_virtual < v0.xres <;>
      by_cases hB : v0.yres_virtual < v0.yres <;>
        simp only [hA, hB, if_true, if_false] <;>
          split_ifs with h1 h2 h3 h4 h5 <;>
              (try dsimp only) <;>
                first
                | (intro hbad; exact absurd hbad (by decide))
                | (intro _hok;
                   exact ⟨by omega, by omega, rfl, rfl, rfl, rfl, rfl, rfl,
                     rfl, rfl, rfl, rfl, rfl, rfl, rfl, vmode_norm v0.vmode⟩)

/-- Witness for C9: the driver's own fixed mode is accepted. -/
theorem hdmi_check_var_spec_witness :
    (hdmi_check_var hdmi_var_init).1 = 0 :=
  ((hdmi_check_var_spec hdmi_var_init).2.1).mpr (by decide)

/-- `CNVT_TOHW(val, 8)` from `hdmi_setcolreg`: `((val << 8) + 0x7fff - val)
>> 16` in 32-bit unsigned arithmetic (wraparound subtraction written as
addition of the two's complement; for arguments below 2^16 no wrap
occurs). -/
def CNVT_TOHW (val : Nat) : Nat :=
  (((val <<< 8) + 0x7fff + (4294967296 - val % 4294967296)) % 4294967296) >>> 16

/-- `hdmi_setcolreg` acting on the 16-entry pseudo palette: converts the
16-bit color components to 8 bits, rejects register numbers of 16 and
above with return value 1, and otherwise stores
`(red << 16) | (green << 8) | (blue << 0)` at index `regno`, returning 0.
The converted transparency component is computed and discarded, as in the
source. -/
def hdmi_setcolreg (regno red green blue transp : Nat)
    (palette : List Nat) : Nat × List Nat :=
  let r := CNVT_TOHW red
  let g := CNVT_TOHW green
  let b := CNVT_TOHW blue
  let _t := CNVT_TOHW transp
  if 16 ≤ regno then (1, palette)
  else (0, palette.set regno ((r <<< 16) ||| (g <<< 8) ||| (b <<< 0)))

/-- Claim C10: with 16-bit color components, `regno ≥ 16` returns 1 and
leaves the palette unchanged; `regno < 16` returns 0 and sets entry
`regno` to `(c(red) << 16) | (c(green) << 8) | c(blue)` where
`c(x) = ((x << 8) + 0x7fff - x) >> 16`; the transparency argument never
affects the result; and the conversion maps into [0, 255] with
`c(0) = 0` and `c(0xffff) = 0xff`. -/
theorem hdmi_setcolreg_spec (regno red green blue transp : Nat)
    (palette : List Nat) (hr : red < 65536) (hg : green < 65536)
    (hb : blue < 65536) (ht : transp < 65536) :
    (16 ≤ regno →
      hdmi_setcolreg regno red green blue transp palette = (1, palette)) ∧
    (regno < 16 →
      hdmi_setcolreg regno red green blue transp palette =
        (0, palette.set regno
          ((CNVT_TOHW red <<< 16) ||| (CNVT_TOHW green <<< 8) |||
            CNVT_TOHW blue))) ∧
    (∀ transp2, hdmi_setcolreg regno red green blue transp2 palette =
      hdmi_setcolreg regno red green blue transp palette) ∧
    (∀ x : Nat, x < 65536 →
      CNVT_TOHW x = ((x <<< 8) + 0x7fff - x) >>> 16 ∧ CNVT_TOHW x ≤ 255) ∧
    CNVT_TOHW 0 = 0 ∧ CNVT_TOHW 65535 = 255 := by
  have hpow8 : (2 : Nat) ^ 8 = 256 := by norm_num
  have hpow16 : (2 : Nat) ^ 16 = 65536 := by norm_num
  have hcv : ∀ x : Nat, x < 65536 →
      CNVT_TOHW x = ((x <<< 8) + 0x7fff - x) >>> 16 ∧ CNVT_TOHW x ≤ 255 := by
    intro x hx
    have hmod : x % 4294967296 = x := Nat.mod_eq_of_lt (by omega)
    have hsub : (x <<< 8) + 0x7fff + (4294967296 - x) =
        ((x <<< 8) + 0x7fff - x) + 4294967296 := by
      rw [Nat.shiftLeft_eq, hpow8]
      omega
    have hlt : (x <<< 8) + 0x7fff - x < 4294967296 := by
      rw [Nat.shiftLeft_eq, hpow8]
      omega
    have heq : CNVT_TOHW x = ((x <<< 8) + 0x7fff - x) >>> 16 := by
      simp only [CNVT_TOHW, hmod, hsub]
      rw [Nat.add_mod_right, Nat.mod_eq_of_lt hlt]
    refine ⟨heq, ?_⟩
    rw [heq, Nat.shiftRight_eq_div_pow, hpow16, Nat.shiftLeft_eq, hpow8]
    omega
  refine ⟨?_, ?_, fun transp2 => rfl, hcv, by decide, by decide⟩
  · intro h
    simp [hdmi_setcolreg, h]
  · intro h
    simp [hdmi_setcolreg, Nat.not_le.mpr h, Nat.shiftLeft_zero]

/-- Witness for C10 at regno 3, red 0xffff, green 0, blue 0x8000,
transparency 7, on the all-zero 16-entry palette. -/
theorem hdmi_setcolreg_spec_witness :
    (16 ≤ 3 →
      hdmi_setcolreg 3 65535 0 32768 7 (List.replicate 16 0) =
        (1, List.replicate 16 0)) ∧
    (3 < 16 →
      hdmi_setcolreg 3 65535 0 32768 7 (List.replicate 16 0) =
        (0, (List.replicate 16 0).set 3
          ((CNVT_TOHW 65535 <<< 16) ||| (CNVT_TOHW 0 <<< 8) |||
            CNVT_TOHW 32768))) ∧
    (∀ transp2, hdmi_setcolreg 3 65535 0 32768 transp2 (List.replicate 16 0) =
      hdmi_setcolreg 3 65535 0 32768 7 (List.replicate 16 0)) ∧
    (∀ x : Nat, x < 65536 →
      CNVT_TOHW x = ((x <<< 8) + 0x7fff - x) >>> 16 ∧ CNVT_TOHW x ≤ 255) ∧
    CNVT_TOHW 0 = 0 ∧ CNVT_TOHW 65535 = 255 :=
  hdmi_setcolreg_spec 3 65535 0 32768 7 (List.replicate 16 0)
    (by decide) (by decide) (by decide) (by decide)
